import Mathlib

/-!
Verification of the logistic-app shipping-cost estimator.

The repository's interface layer (`src/frontend/src/components/CalculatePage.tsx`)
is embedded shallowly below: component state becomes a `PageState` record, the
event handlers `handleSubmit` / `handleReset` become pure state transformers
(the network effect of `fetch` is passed in explicitly as an `Except` value),
and the JSX output of the results card becomes a list of render nodes.

The backend pricing engine (a Python/Flask service, per the repository README)
is not part of the source tree here; it is modelled from the specification's
algorithm description (spec section 4.1) as `calculateShipping`.

JavaScript numbers are modelled as rationals (`ℚ`); `NaN` outcomes of
`parseFloat` are modelled as `none` of `Option ℚ`, and the `parseFloat`
primitive itself is an explicit parameter of `handleSubmit`, so every theorem
about the handler holds for every possible parse behaviour.
-/

/-- The `destination` field: the TS union type `"national" | "international"`. -/
inductive Destination
  | national
  | international
deriving DecidableEq, Repr

/-- TS interface `ShippingFormData`: the four numeric fields are kept as the
raw input strings, exactly as in the component state. -/
structure ShippingFormData where
  length_cm : String
  width_cm : String
  height_cm : String
  weight_kg : String
  is_express : Bool
  destination : Destination
deriving DecidableEq, Repr

/-- The initial value passed to `useState<ShippingFormData>` in `CalculatePage`. -/
def initialFormData : ShippingFormData :=
  { length_cm := ""
    width_cm := ""
    height_cm := ""
    weight_kg := ""
    is_express := false
    destination := Destination.national }

/-- TS interface `PackageSummary.dimensions` (all fields optional). -/
structure SummaryDimensions where
  length_cm : Option ℚ
  width_cm : Option ℚ
  height_cm : Option ℚ
deriving DecidableEq, Repr

/-- TS interface `PackageSummary`. -/
structure PackageSummary where
  dimensions : Option SummaryDimensions
  weight_kg : Option ℚ
deriving DecidableEq, Repr

/-- TS interface `ApiResponse`: the parsed JSON body of the backend reply. -/
structure ApiResponse where
  success : Bool
  calculation_id : Option String
  total_price : Option ℚ
  currency : Option String
  alerts : List String
  estimated_delivery : Option String
  package_summary : Option PackageSummary
  error : Option String
deriving DecidableEq, Repr

/-- The component state of `CalculatePage`: the four `useState` hooks. -/
structure PageState where
  formData : ShippingFormData
  result : Option ApiResponse
  loading : Bool
  error : String
deriving DecidableEq, Repr

/-- The `numericFields` array of `handleSubmit`, in its fixed order. -/
def numericFields : List String :=
  ["length_cm", "width_cm", "height_cm", "weight_kg"]

/-- Field access `formData[field]` for the four numeric fields. -/
def ShippingFormData.getField (fd : ShippingFormData) (f : String) : String :=
  if f = "length_cm" then fd.length_cm
  else if f = "width_cm" then fd.width_cm
  else if f = "height_cm" then fd.height_cm
  else fd.weight_kg

/-- The test `isNaN(value) || value <= 0` of the validation loop, on the
modelled result of `parseFloat` (`none` = NaN). -/
def invalidNum (v : Option ℚ) : Bool :=
  match v with
  | none => true
  | some x => decide (x ≤ 0)

/-- The validation loop of `handleSubmit`: the first field of `numericFields`
whose parsed value is NaN or non-positive, if any. -/
def firstInvalidField (pf : String → Option ℚ) (fd : ShippingFormData) :
    Option String :=
  numericFields.find? (fun f => invalidNum (pf (fd.getField f)))

/-- JS `field.replace("_", " ")`: replaces the first underscore only. -/
def replaceUscoreAux : List Char → List Char
  | [] => []
  | c :: cs => if c = '_' then ' ' :: cs else c :: replaceUscoreAux cs

/-- JS `field.replace("_", " ")` on a string. -/
def jsReplaceUnderscore (s : String) : String :=
  String.mk (replaceUscoreAux s.data)

/-- The validation error message built in `handleSubmit`. -/
def validationMessage (field : String) : String :=
  "Please enter a valid positive number for " ++ jsReplaceUnderscore field

/-- The HTTP response as seen by `handleSubmit`: the `ok` flag of the fetch
response together with the JSON body delivered by `response.json()`. -/
structure HttpResponse where
  ok : Bool
  body : ApiResponse
deriving DecidableEq, Repr

/-- The outcome of the `fetch` + `response.json()` calls: either a response,
or a thrown value (`some msg` = a JS `Error` with that message, `none` = a
thrown non-`Error` value). -/
def FetchOutcome : Type := Except (Option String) HttpResponse

/-- JS `data.error || "API request failed"`: `undefined` and the empty string
are falsy, so both select the fallback. -/
def jsOrElse (s : Option String) (fallback : String) : String :=
  match s with
  | some e => if e = "" then fallback else e
  | none => fallback

/-- The result of one run of `handleSubmit`: the final committed component
state, and whether the `fetch` call to the API was issued at all. -/
structure SubmitResult where
  state : PageState
  apiCalled : Bool
deriving DecidableEq, Repr

/-- Shallow embedding of `handleSubmit` (CalculatePage.tsx lines 77-133).

The handler first clears `error` and `result` and sets `loading`; then runs
the validation loop (early return with `loading` reset on the first invalid
field); otherwise issues the request and, in `try/catch/finally`, commits
either the successful body to `result` or an error message to `error`,
always clearing `loading` in `finally`. -/
def handleSubmit (pf : String → Option ℚ) (net : FetchOutcome)
    (s0 : PageState) : SubmitResult :=
  let s1 : PageState := { s0 with error := "", result := none, loading := true }
  match firstInvalidField pf s1.formData with
  | some field =>
      { state := { s1 with error := validationMessage field, loading := false }
        apiCalled := false }
  | none =>
      let s2 : PageState :=
        match net with
        | Except.ok resp =>
            if !resp.ok || !resp.body.success then
              { s1 with error := jsOrElse resp.body.error "API request failed" }
            else
              { s1 with result := some resp.body }
        | Except.error thrown =>
            { s1 with
              error :=
                match thrown with
                | some msg => msg
                | none => "An error occurred while calculating shipping" }
      { state := { s2 with loading := false }, apiCalled := true }

/-- Shallow embedding of `handleReset` (CalculatePage.tsx lines 135-146). -/
def handleReset (s : PageState) : PageState :=
  { s with formData := initialFormData, result := none, error := "" }

/-! ### The rendered results card

The JSX of the results card (CalculatePage.tsx lines 298-400) is flattened
into a list of render nodes, keeping the conditionals and order of the JSX. -/

/-- A displayed element of the results card. -/
inductive RNode
  | resultsTitle
  | priceDisplay (txt : String)
  | deliveryText (txt : String)
  | summaryHeading
  | alertsHeading
  | alertItem (txt : String)
  | calcId (txt : String)
deriving DecidableEq, Repr

/-- The digit character of `n % 10`. -/
def digitChar (n : Nat) : Char := Char.ofNat (48 + n % 10)

/-- JS `Number.prototype.toFixed(2)` on a rational, rounding half away from
zero: an optional sign, the integer digits, a point, and two fraction
digits. -/
def jsToFixed2 (q : ℚ) : String :=
  let n : Int := Int.floor (|q| * 100 + 1 / 2)
  let m : Nat := n.natAbs
  (if q < 0 ∧ n ≠ 0 then "-" else "") ++ toString (m / 100) ++ "." ++
    String.mk [digitChar (m / 10 % 10), digitChar (m % 10)]

/-- The text of the price heading: `result.total_price?.toFixed(2)` followed
by `result.currency` (optional chaining renders nothing for `undefined`). -/
def priceText (r : ApiResponse) : String :=
  (match r.total_price with
   | some p => jsToFixed2 p
   | none => "") ++ " " ++
  (match r.currency with
   | some c => c
   | none => "")

/-- The alerts section of the results card (CalculatePage.tsx lines 346-388):
an outer block guarded by `result.alerts.length > 0` containing a
"Shipping Alerts" heading, then a nested block guarded by the same condition
containing a second heading and the mapped alert items. -/
def renderAlertsSection (r : ApiResponse) : List RNode :=
  if r.alerts.length > 0 then
    RNode.alertsHeading ::
      (if r.alerts.length > 0 then
        RNode.alertsHeading :: r.alerts.map RNode.alertItem
      else [])
  else []

/-- The body of the results card (CalculatePage.tsx lines 298-400). -/
def renderResultsCard (r : ApiResponse) : List RNode :=
  [RNode.resultsTitle,
   RNode.priceDisplay (priceText r),
   RNode.deliveryText
     (match r.estimated_delivery with
      | some d => d
      | none => "")] ++
  (match r.package_summary with
   | some _ => [RNode.summaryHeading]
   | none => []) ++
  renderAlertsSection r ++
  (match r.calculation_id with
   | some cid => [RNode.calcId cid]
   | none => [])

/-- The results-card portion of the rendered page: present exactly when
`result && result.success` (CalculatePage.tsx line 298). -/
def renderPage (s : PageState) : List RNode :=
  match s.result with
  | some r => if r.success then renderResultsCard r else []
  | none => []

/-! ### The pricing engine, modelled from the spec

The backend `POST /api/calculate` implementation is not in the source tree
(the frontend and README are); the engine is modelled from spec section 4.1. -/

/-- Modelled from the spec: the pricing coefficients ("business
configuration, not algorithmic"; spec section 4.1 step 2 and section 9) of
the missing backend pricing engine, as an explicit configuration record. -/
structure PricingConfig where
  per_kg_rate : ℚ
  per_volume_rate : ℚ
  national_multiplier : ℚ
  international_multiplier : ℚ
  express_multiplier : ℚ
  oversized_threshold_cm : ℚ
  bulky_volume_threshold : ℚ
deriving DecidableEq, Repr

/-- A sample configuration (spec: exact coefficients are business
configuration; these satisfy the spec's constraints: non-negative rates,
international above national, express surcharge above one). -/
def defaultConfig : PricingConfig :=
  { per_kg_rate := 2
    per_volume_rate := 1 / 1000
    national_multiplier := 1
    international_multiplier := 3 / 2
    express_multiplier := 3 / 2
    oversized_threshold_cm := 100
    bulky_volume_threshold := 100000 }

/-- The spec's `ShippingRequest` data model (spec section 3), with JS
numbers modelled as rationals. -/
structure ShippingRequest where
  length_cm : ℚ
  width_cm : ℚ
  height_cm : ℚ
  weight_kg : ℚ
  is_express : Bool
  destination : Destination
deriving DecidableEq, Repr

/-- The spec's validity invariant: all dimension and weight fields strictly
positive. -/
def ShippingRequest.Valid (r : ShippingRequest) : Prop :=
  0 < r.length_cm ∧ 0 < r.width_cm ∧ 0 < r.height_cm ∧ 0 < r.weight_kg

instance (r : ShippingRequest) : Decidable r.Valid := by
  unfold ShippingRequest.Valid
  infer_instance

/-- Modelled from the spec: step 1 of the algorithm, the package volume in
cubic centimeters. -/
def ShippingRequest.volume (r : ShippingRequest) : ℚ :=
  r.length_cm * r.width_cm * r.height_cm

/-- Modelled from the spec: step 5, rounding to 2 decimal places, with
round-half-up chosen (the spec allows either half-up or half-even, asking
that one be picked and documented). -/
def round2 (q : ℚ) : ℚ :=
  ((Int.floor (q * 100 + 1 / 2) : ℤ) : ℚ) / 100

/-- The heavy-package alert string. -/
def heavyAlert : String :=
  "Heavy package: special handling may be required"

/-- The oversized-dimension alert string. -/
def oversizedAlert : String :=
  "Oversized dimension: package exceeds the size threshold"

/-- The bulky-volume alert string. -/
def bulkyAlert : String :=
  "Bulky volume: package volume exceeds the threshold"

/-- The customs-documentation alert string. -/
def customsAlert : String :=
  "International shipment: customs documentation may be required"

/-- Modelled from the spec: step 6, the alert rules evaluated independently
of pricing, in fixed priority order (heavy, oversized, bulky, customs). -/
def alertsFor (cfg : PricingConfig) (r : ShippingRequest) : List String :=
  (if 20 < r.weight_kg then [heavyAlert] else []) ++
  (if cfg.oversized_threshold_cm < max r.length_cm (max r.width_cm r.height_cm)
    then [oversizedAlert] else []) ++
  (if cfg.bulky_volume_threshold < r.volume then [bulkyAlert] else []) ++
  (if r.destination = Destination.international then [customsAlert] else [])

/-- Modelled from the spec: step 7, the estimated-delivery lookup keyed by
(destination, is_express), using the spec's four textual ranges. -/
def estimatedDelivery : Destination → Bool → String
  | Destination.national, false => "5-7 business days"
  | Destination.national, true => "2-3 business days"
  | Destination.international, false => "7-14 business days"
  | Destination.international, true => "3-5 business days"

/-- The destination multiplier of step 3. -/
def destMultiplier (cfg : PricingConfig) : Destination → ℚ
  | Destination.national => cfg.national_multiplier
  | Destination.international => cfg.international_multiplier

/-- The spec's `PricingResult` (spec section 3), with `package_summary`
echoing the request's dimensions and weight. -/
structure PricingResult where
  total_price : ℚ
  currency : String
  alerts : List String
  estimated_delivery : String
  summary_length_cm : ℚ
  summary_width_cm : ℚ
  summary_height_cm : ℚ
  summary_weight_kg : ℚ
deriving DecidableEq, Repr

/-- Modelled from the spec: the pricing engine (spec section 4.1, steps
1-8). Base price is the larger of the weight-based and the volumetric
charge; the destination multiplier and then the express surcharge
(multiplicative) are applied; the result is rounded to 2 decimals. -/
def calculateShipping (cfg : PricingConfig) (r : ShippingRequest) :
    PricingResult :=
  let vol := r.volume
  let base := max (cfg.per_kg_rate * r.weight_kg) (cfg.per_volume_rate * vol)
  let withDest := base * destMultiplier cfg r.destination
  let withExpress :=
    if r.is_express then withDest * cfg.express_multiplier else withDest
  { total_price := round2 withExpress
    currency := "EUR"
    alerts := alertsFor cfg r
    estimated_delivery := estimatedDelivery r.destination r.is_express
    summary_length_cm := r.length_cm
    summary_width_cm := r.width_cm
    summary_height_cm := r.height_cm
    summary_weight_kg := r.weight_kg }

/-! ### Helper lemmas -/

/-- Membership in a conditional singleton list. -/
theorem mem_ite_singleton {α} (a b : α) (c : Prop) [Decidable c] :
    a ∈ (if c then [b] else []) ↔ c ∧ a = b := by
  split <;> simp_all

/-- `List.find?` returns an element satisfying the predicate whose index is
minimal among all satisfying elements. -/
theorem find?_first {α} [DecidableEq α] (p : α → Bool) (l : List α) (a : α)
    (h : l.find? p = some a) :
    a ∈ l ∧ p a = true ∧
      ∀ b ∈ l, p b = true → l.indexOf a ≤ l.indexOf b := by
  induction l with
  | nil => simp [List.find?] at h
  | cons x l ih =>
      by_cases hx : p x
      · rw [List.find?_cons_of_pos _ hx] at h
        obtain rfl : x = a := by simpa using h
        refine ⟨List.mem_cons_self _ _, hx, ?_⟩
        intro b _ _
        simp [List.indexOf_cons_self]
      · rw [List.find?_cons_of_neg _ hx] at h
        obtain ⟨ha, hpa, hmin⟩ := ih h
        have hax : a ≠ x := fun hax => hx (hax ▸ hpa)
        refine ⟨List.mem_cons_of_mem _ ha, hpa, ?_⟩
        intro b hb hpb
        have hbx : b ≠ x := fun hbx => hx (hbx ▸ hpb)
        have hbl : b ∈ l := by
          rcases List.mem_cons.mp hb with h1 | h1
          · exact absurd h1 hbx
          · exact h1
        rw [List.indexOf_cons_ne _ (Ne.symm hax), List.indexOf_cons_ne _ (Ne.symm hbx)]
        exact Nat.succ_le_succ (hmin b hbl hpb)

/-- C8: `handleReset` restores the form to its initial value and clears the
result and the error message, whatever the state before the call. -/
theorem handleReset_restores_initial (s : PageState) :
    (handleReset s).formData = initialFormData ∧
    (handleReset s).result = none ∧
    (handleReset s).error = "" :=
  ⟨rfl, rfl, rfl⟩

/-- C10: every execution of `handleSubmit` ends with `loading = false`:
on the validation early return it is reset before returning, and otherwise
the `finally` block clears it on both the success and the exception path. -/
theorem handleSubmit_loading_false (pf : String → Option ℚ)
    (net : FetchOutcome) (s : PageState) :
    (handleSubmit pf net s).state.loading = false := by
  unfold handleSubmit
  dsimp only
  split
  · rfl
  · rfl
/-- C1: if any of the four numeric fields parses to NaN or to a non-positive
value, `handleSubmit` never issues the API call, leaves `result` unset, and
sets the error message naming the first failing field in the fixed order
`length_cm, width_cm, height_cm, weight_kg`. -/
theorem handleSubmit_validation_rejects (pf : String → Option ℚ)
    (net : FetchOutcome) (s : PageState)
    (h : ∃ f ∈ numericFields, invalidNum (pf (s.formData.getField f)) = true) :
    (handleSubmit pf net s).apiCalled = false ∧
    (handleSubmit pf net s).state.result = none ∧
    ∃ f ∈ numericFields,
      invalidNum (pf (s.formData.getField f)) = true ∧
      (∀ g ∈ numericFields,
        invalidNum (pf (s.formData.getField g)) = true →
          numericFields.indexOf f ≤ numericFields.indexOf g) ∧
      (handleSubmit pf net s).state.error = validationMessage f := by
  obtain ⟨f0, hf0, hp0⟩ := h
  have hsome : ∃ f, firstInvalidField pf s.formData = some f := by
    have h2 : (numericFields.find?
        (fun f => invalidNum (pf (s.formData.getField f)))).isSome := by
      rw [List.find?_isSome]
      exact ⟨f0, hf0, hp0⟩
    exact Option.isSome_iff_exists.mp h2
  obtain ⟨f, hf⟩ := hsome
  obtain ⟨hmem, hpf, hmin⟩ := find?_first _ _ _ hf
  have hrun : handleSubmit pf net s =
      ⟨{ s with error := validationMessage f, result := none, loading := false }, false⟩ := by
    unfold handleSubmit
    dsimp only
    rw [show firstInvalidField pf ({ s with error := "", result := none, loading := true } : PageState).formData = some f from hf]
  rw [hrun]
  exact ⟨rfl, rfl, f, hmem, hpf, hmin, rfl⟩

/-- A parse function sending every string to NaN (used as a concrete input). -/
def pfNone : String → Option ℚ := fun _ => none

/-- A parse function sending every string to 1 (used as a concrete input). -/
def pfOne : String → Option ℚ := fun _ => some 1

/-- A concrete page state: the component's initial state. -/
def emptyPage : PageState :=
  { formData := initialFormData, result := none, loading := false, error := "" }

theorem handleSubmit_validation_rejects_witness :
    (∃ f ∈ numericFields,
      invalidNum (pfNone (emptyPage.formData.getField f)) = true) ∧
    (handleSubmit pfNone (Except.error none) emptyPage).apiCalled = false ∧
    (handleSubmit pfNone (Except.error none) emptyPage).state.result = none ∧
    ∃ f ∈ numericFields,
      invalidNum (pfNone (emptyPage.formData.getField f)) = true ∧
      (∀ g ∈ numericFields,
        invalidNum (pfNone (emptyPage.formData.getField g)) = true →
          numericFields.indexOf f ≤ numericFields.indexOf g) ∧
      (handleSubmit pfNone (Except.error none) emptyPage).state.error =
        validationMessage f :=
  ⟨⟨"length_cm", by decide, rfl⟩,
    handleSubmit_validation_rejects pfNone (Except.error none) emptyPage
      ⟨"length_cm", by decide, rfl⟩⟩

/-- When validation passes and a response arrives, `handleSubmit` reduces to
a two-way case split on `response.ok && data.success`. -/
theorem handleSubmit_ok_eq (pf : String → Option ℚ) (resp : HttpResponse)
    (s : PageState) (hv : firstInvalidField pf s.formData = none) :
    handleSubmit pf (Except.ok resp) s =
      if resp.ok && resp.body.success then
        ⟨{ s with error := "", result := some resp.body, loading := false }, true⟩
      else
        ⟨{ s with error := jsOrElse resp.body.error "API request failed", result := none, loading := false }, true⟩ := by
  unfold handleSubmit
  dsimp only
  rw [show firstInvalidField pf ({ s with error := "", result := none, loading := true } : PageState).formData = none from hv]
  cases hok : resp.ok <;> cases hsucc : resp.body.success <;>
    simp [hok, hsucc]

/-- C9: for every API response received (validation having passed), the
result state is set, to the response body, iff the HTTP response is ok and
the body's `success` is true; otherwise the result stays `null` and the
error state holds the response's error string or the fallback. -/
theorem handleSubmit_result_iff_success (pf : String → Option ℚ)
    (resp : HttpResponse) (s : PageState)
    (hv : firstInvalidField pf s.formData = none) :
    ((handleSubmit pf (Except.ok resp) s).state.result ≠ none ↔
      (resp.ok = true ∧ resp.body.success = true)) ∧
    ((resp.ok = true ∧ resp.body.success = true) →
      (handleSubmit pf (Except.ok resp) s).state.result = some resp.body) ∧
    (¬(resp.ok = true ∧ resp.body.success = true) →
      (handleSubmit pf (Except.ok resp) s).state.result = none ∧
      ((∃ e, resp.body.error = some e ∧ e ≠ "" ∧
          (handleSubmit pf (Except.ok resp) s).state.error = e) ∨
        (handleSubmit pf (Except.ok resp) s).state.error =
          "API request failed")) := by
  rw [handleSubmit_ok_eq pf resp s hv]
  by_cases hb : (resp.ok && resp.body.success) = true
  · obtain ⟨hok, hsucc⟩ := Bool.and_eq_true_iff.mp hb
    rw [if_pos hb]
    refine ⟨by simp [hok, hsucc], fun _ => rfl, fun hc => absurd ⟨hok, hsucc⟩ hc⟩
  · rw [if_neg hb]
    have hns : ¬(resp.ok = true ∧ resp.body.success = true) := by
      intro hc
      exact hb (Bool.and_eq_true_iff.mpr hc)
    refine ⟨by simp [hns], fun hc => absurd hc hns, fun _ => ⟨rfl, ?_⟩⟩
    cases he : resp.body.error with
    | none => exact Or.inr (by simp [jsOrElse])
    | some e =>
        by_cases hemp : e = ""
        · exact Or.inr (by simp [jsOrElse, hemp])
        · exact Or.inl ⟨e, rfl, hemp, by simp [jsOrElse, hemp]⟩

/-- A concrete successful API body. -/
def okBody : ApiResponse :=
  { success := true, calculation_id := none, total_price := some 42,
    currency := some "EUR", alerts := ["Heavy package"],
    estimated_delivery := some "5-7 business days",
    package_summary := none, error := none }

/-- A concrete ok HTTP response carrying `okBody`. -/
def okResp : HttpResponse := { ok := true, body := okBody }

theorem handleSubmit_result_iff_success_witness :
    firstInvalidField pfOne emptyPage.formData = none ∧
    (((handleSubmit pfOne (Except.ok okResp) emptyPage).state.result ≠ none ↔
      (okResp.ok = true ∧ okResp.body.success = true)) ∧
    ((okResp.ok = true ∧ okResp.body.success = true) →
      (handleSubmit pfOne (Except.ok okResp) emptyPage).state.result =
        some okResp.body) ∧
    (¬(okResp.ok = true ∧ okResp.body.success = true) →
      (handleSubmit pfOne (Except.ok okResp) emptyPage).state.result = none ∧
      ((∃ e, okResp.body.error = some e ∧ e ≠ "" ∧
          (handleSubmit pfOne (Except.ok okResp) emptyPage).state.error = e) ∨
        (handleSubmit pfOne (Except.ok okResp) emptyPage).state.error =
          "API request failed"))) :=
  ⟨by decide,
    handleSubmit_result_iff_success pfOne okResp emptyPage (by decide)⟩

/-- C2: for every rendered successful result with a non-empty alerts array,
the results card contains the "Shipping Alerts" heading twice (the outer
block and the nested duplicate block guarded by the same condition). -/
theorem alerts_heading_rendered_twice (s : PageState) (r : ApiResponse)
    (hr : s.result = some r) (hs : r.success = true) (ha : r.alerts ≠ []) :
    (renderPage s).count RNode.alertsHeading = 2 := by
  have hlen : 0 < r.alerts.length := List.length_pos.mpr ha
  cases hps : r.package_summary <;> cases hcid : r.calculation_id <;>
    simp [renderPage, hr, hs, renderResultsCard, renderAlertsSection, hps,
      hcid, hlen, List.count_append, List.count_cons, List.count_eq_zero,
      List.mem_map]

/-- A concrete page state showing a successful result with one alert. -/
def alertPage : PageState :=
  { formData := initialFormData, result := some okBody, loading := false,
    error := "" }

theorem alerts_heading_rendered_twice_witness :
    alertPage.result = some okBody ∧ okBody.success = true ∧
    okBody.alerts ≠ [] ∧
    (renderPage alertPage).count RNode.alertsHeading = 2 :=
  ⟨rfl, rfl, by decide,
    alerts_heading_rendered_twice alertPage okBody rfl rfl (by decide)⟩

/-- C3: the engine's alerts contain the heavy-package alert iff
`weight_kg > 20` (strictly; 20 exactly produces no heavy alert). -/
theorem heavy_alert_iff (cfg : PricingConfig) (r : ShippingRequest)
    (_hval : r.Valid) :
    heavyAlert ∈ (calculateShipping cfg r).alerts ↔ 20 < r.weight_kg := by
  simp only [calculateShipping, alertsFor, List.mem_append, mem_ite_singleton]
  constructor
  · rintro (((⟨h, _⟩ | ⟨_, he⟩) | ⟨_, he⟩) | ⟨_, he⟩)
    · exact h
    all_goals exact absurd he (by decide)
  · intro h
    exact Or.inl (Or.inl (Or.inl ⟨h, trivial⟩))

/-- The README's worked example request: 30 x 20 x 15 cm, 25 kg, express,
international. -/
def sampleIntl : ShippingRequest :=
  { length_cm := 30, width_cm := 20, height_cm := 15, weight_kg := 25,
    is_express := true, destination := Destination.international }

/-- The spec's small-package scenario: 10 x 10 x 10 cm, 5 kg, standard,
national. -/
def sampleNat : ShippingRequest :=
  { length_cm := 10, width_cm := 10, height_cm := 10, weight_kg := 5,
    is_express := false, destination := Destination.national }

theorem heavy_alert_iff_witness :
    sampleIntl.Valid ∧
    (heavyAlert ∈ (calculateShipping defaultConfig sampleIntl).alerts ↔
      20 < sampleIntl.weight_kg) :=
  ⟨by decide, heavy_alert_iff defaultConfig sampleIntl (by decide)⟩

/-- C4: the engine's alerts contain the customs-documentation alert iff the
destination is international; a national destination never produces it. -/
theorem customs_alert_iff (cfg : PricingConfig) (r : ShippingRequest)
    (_hval : r.Valid) :
    customsAlert ∈ (calculateShipping cfg r).alerts ↔
      r.destination = Destination.international := by
  simp only [calculateShipping, alertsFor, List.mem_append, mem_ite_singleton]
  constructor
  · rintro (((⟨_, he⟩ | ⟨_, he⟩) | ⟨_, he⟩) | ⟨h, _⟩)
    · exact absurd he (by decide)
    · exact absurd he (by decide)
    · exact absurd he (by decide)
    · exact h
  · intro h
    exact Or.inr ⟨h, trivial⟩

theorem customs_alert_iff_witness :
    sampleNat.Valid ∧
    (customsAlert ∈ (calculateShipping defaultConfig sampleNat).alerts ↔
      sampleNat.destination = Destination.international) :=
  ⟨by decide, customs_alert_iff defaultConfig sampleNat (by decide)⟩

/-- C7: the engine's estimated delivery is one of exactly four pairwise
distinct fixed strings, and is determined solely by the pair
(destination, is_express). -/
theorem estimated_delivery_four (cfg : PricingConfig) (r : ShippingRequest)
    (_hval : r.Valid) :
    (calculateShipping cfg r).estimated_delivery ∈
      ["5-7 business days", "2-3 business days",
       "7-14 business days", "3-5 business days"] ∧
    List.Pairwise Ne
      ["5-7 business days", "2-3 business days",
       "7-14 business days", "3-5 business days"] ∧
    ∀ (cfg2 : PricingConfig) (r2 : ShippingRequest),
      r2.destination = r.destination → r2.is_express = r.is_express →
        (calculateShipping cfg2 r2).estimated_delivery =
          (calculateShipping cfg r).estimated_delivery := by
  refine ⟨?_, by decide, ?_⟩
  · show estimatedDelivery r.destination r.is_express ∈ _
    cases r.destination <;> cases r.is_express <;> decide
  · intro cfg2 r2 hd he
    show estimatedDelivery r2.destination r2.is_express =
      estimatedDelivery r.destination r.is_express
    rw [hd, he]

theorem estimated_delivery_four_witness :
    sampleNat.Valid ∧
    ((calculateShipping defaultConfig sampleNat).estimated_delivery ∈
      ["5-7 business days", "2-3 business days",
       "7-14 business days", "3-5 business days"] ∧
    List.Pairwise Ne
      ["5-7 business days", "2-3 business days",
       "7-14 business days", "3-5 business days"] ∧
    ∀ (cfg2 : PricingConfig) (r2 : ShippingRequest),
      r2.destination = sampleNat.destination →
      r2.is_express = sampleNat.is_express →
        (calculateShipping cfg2 r2).estimated_delivery =
          (calculateShipping defaultConfig sampleNat).estimated_delivery) :=
  ⟨by decide, estimated_delivery_four defaultConfig sampleNat (by decide)⟩

/-- The engine's total price, written out: the rounded product of the
dimensional-weight base, the destination multiplier and, when express, the
express surcharge. -/
theorem calculateShipping_total_price (cfg : PricingConfig)
    (r : ShippingRequest) :
    (calculateShipping cfg r).total_price =
      round2 (if r.is_express then
          max (cfg.per_kg_rate * r.weight_kg) (cfg.per_volume_rate * r.volume) *
            destMultiplier cfg r.destination * cfg.express_multiplier
        else
          max (cfg.per_kg_rate * r.weight_kg) (cfg.per_volume_rate * r.volume) *
            destMultiplier cfg r.destination) := by
  unfold calculateShipping
  cases r.is_express <;> rfl

/-- Rounding to two decimals preserves non-negativity. -/
theorem round2_nonneg (q : ℚ) (h : 0 ≤ q) : 0 ≤ round2 q := by
  unfold round2
  apply div_nonneg _ (by norm_num)
  have hfl : (0 : ℤ) ≤ Int.floor (q * 100 + 1 / 2) := by
    rw [Int.le_floor]
    push_cast
    linarith
  exact_mod_cast hfl

/-- Rounding to two decimals is monotone. -/
theorem round2_mono {a b : ℚ} (h : a ≤ b) : round2 a ≤ round2 b := by
  unfold round2
  have h2 : Int.floor (a * 100 + 1 / 2) ≤ Int.floor (b * 100 + 1 / 2) :=
    Int.floor_le_floor (by linarith)
  have h3 : ((Int.floor (a * 100 + 1 / 2) : ℤ) : ℚ) ≤
      ((Int.floor (b * 100 + 1 / 2) : ℤ) : ℚ) := by exact_mod_cast h2
  linarith

/-- The destination multiplier is non-negative when both configured
multipliers are. -/
theorem destMultiplier_nonneg (cfg : PricingConfig)
    (h3 : 0 ≤ cfg.national_multiplier)
    (h4 : 0 ≤ cfg.international_multiplier) (d : Destination) :
    0 ≤ destMultiplier cfg d := by
  cases d
  · simpa [destMultiplier] using h3
  · simpa [destMultiplier] using h4

/-- `digitChar` always yields a decimal digit character. -/
theorem digitChar_isDigit (n : Nat) : (digitChar n).isDigit = true := by
  unfold digitChar
  have h : n % 10 < 10 := Nat.mod_lt _ (by norm_num)
  set k := n % 10 with hk
  interval_cases k <;> decide

/-- The string produced by `jsToFixed2` always ends in a decimal point
followed by exactly two digit characters. -/
theorem jsToFixed2_shape (q : ℚ) :
    ∃ intPart : String, ∃ c1 c2 : Char,
      c1.isDigit = true ∧ c2.isDigit = true ∧
      jsToFixed2 q = intPart ++ "." ++ String.mk [c1, c2] := by
  refine ⟨(if q < 0 ∧ Int.floor (|q| * 100 + 1 / 2) ≠ 0 then "-" else "") ++
      toString ((Int.floor (|q| * 100 + 1 / 2)).natAbs / 100),
    digitChar ((Int.floor (|q| * 100 + 1 / 2)).natAbs / 10 % 10),
    digitChar ((Int.floor (|q| * 100 + 1 / 2)).natAbs % 10),
    digitChar_isDigit _, digitChar_isDigit _, rfl⟩

/-- C5: for every valid request (and non-negative configured rates), the
engine's total price is non-negative and is an integer number of cents, and
the client's price display (`toFixed(2)` as modelled by `jsToFixed2` inside
`priceText`) shows it with exactly two decimal digits. -/
theorem total_price_nonneg_two_decimals (cfg : PricingConfig)
    (r : ShippingRequest) (hval : r.Valid)
    (h1 : 0 ≤ cfg.per_kg_rate) (_h2 : 0 ≤ cfg.per_volume_rate)
    (h3 : 0 ≤ cfg.national_multiplier)
    (h4 : 0 ≤ cfg.international_multiplier)
    (h5 : 0 ≤ cfg.express_multiplier) :
    0 ≤ (calculateShipping cfg r).total_price ∧
    (∃ n : ℤ, (calculateShipping cfg r).total_price = (n : ℚ) / 100) ∧
    ∀ a : ApiResponse,
      a.total_price = some (calculateShipping cfg r).total_price →
      ∃ intPart : String, ∃ c1 c2 : Char,
        c1.isDigit = true ∧ c2.isDigit = true ∧
        priceText a = intPart ++ "." ++ String.mk [c1, c2] ++ " " ++
          (match a.currency with
           | some c => c
           | none => "") := by
  have hdm : 0 ≤ destMultiplier cfg r.destination :=
    destMultiplier_nonneg cfg h3 h4 r.destination
  have hbase : 0 ≤
      max (cfg.per_kg_rate * r.weight_kg) (cfg.per_volume_rate * r.volume) :=
    le_trans (mul_nonneg h1 hval.2.2.2.le) (le_max_left _ _)
  refine ⟨?_, ?_, ?_⟩
  · rw [calculateShipping_total_price]
    apply round2_nonneg
    by_cases hex : r.is_express = true
    · rw [if_pos hex]
      exact mul_nonneg (mul_nonneg hbase hdm) h5
    · rw [if_neg hex]
      exact mul_nonneg hbase hdm
  · rw [calculateShipping_total_price]
    exact ⟨_, rfl⟩
  · intro a ha
    obtain ⟨ip, c1, c2, hc1, hc2, heq⟩ :=
      jsToFixed2_shape (calculateShipping cfg r).total_price
    refine ⟨ip, c1, c2, hc1, hc2, ?_⟩
    unfold priceText
    rw [ha]
    dsimp only
    rw [heq]

theorem total_price_nonneg_two_decimals_witness :
    sampleNat.Valid ∧
    0 ≤ defaultConfig.per_kg_rate ∧ 0 ≤ defaultConfig.per_volume_rate ∧
    0 ≤ defaultConfig.national_multiplier ∧
    0 ≤ defaultConfig.international_multiplier ∧
    0 ≤ defaultConfig.express_multiplier ∧
    (0 ≤ (calculateShipping defaultConfig sampleNat).total_price ∧
    (∃ n : ℤ,
      (calculateShipping defaultConfig sampleNat).total_price =
        (n : ℚ) / 100) ∧
    ∀ a : ApiResponse,
      a.total_price =
        some (calculateShipping defaultConfig sampleNat).total_price →
      ∃ intPart : String, ∃ c1 c2 : Char,
        c1.isDigit = true ∧ c2.isDigit = true ∧
        priceText a = intPart ++ "." ++ String.mk [c1, c2] ++ " " ++
          (match a.currency with
           | some c => c
           | none => "")) :=
  ⟨by decide, by norm_num [defaultConfig], by norm_num [defaultConfig],
    by norm_num [defaultConfig], by norm_num [defaultConfig],
    by norm_num [defaultConfig],
    total_price_nonneg_two_decimals defaultConfig sampleNat (by decide)
      (by norm_num [defaultConfig]) (by norm_num [defaultConfig])
      (by norm_num [defaultConfig]) (by norm_num [defaultConfig])
      (by norm_num [defaultConfig])⟩

/-- C6: pricing is monotonic non-decreasing in `weight_kg` with all other
request fields held fixed (for non-negative configured rates and
multipliers). -/
theorem price_mono_weight (cfg : PricingConfig)
    (h1 : 0 ≤ cfg.per_kg_rate)
    (h3 : 0 ≤ cfg.national_multiplier)
    (h4 : 0 ≤ cfg.international_multiplier)
    (h5 : 0 ≤ cfg.express_multiplier)
    (r r' : ShippingRequest) (_hval : r.Valid) (_hval' : r'.Valid)
    (hl : r'.length_cm = r.length_cm) (hw : r'.width_cm = r.width_cm)
    (hh : r'.height_cm = r.height_cm) (he : r'.is_express = r.is_express)
    (hd : r'.destination = r.destination)
    (hwt : r.weight_kg ≤ r'.weight_kg) :
    (calculateShipping cfg r).total_price ≤
      (calculateShipping cfg r').total_price := by
  rw [calculateShipping_total_price, calculateShipping_total_price]
  have hvol : r'.volume = r.volume := by
    unfold ShippingRequest.volume
    rw [hl, hw, hh]
  rw [hvol, he, hd]
  apply round2_mono
  have hdm : 0 ≤ destMultiplier cfg r.destination :=
    destMultiplier_nonneg cfg h3 h4 r.destination
  have hbase :
      max (cfg.per_kg_rate * r.weight_kg) (cfg.per_volume_rate * r.volume) ≤
      max (cfg.per_kg_rate * r'.weight_kg) (cfg.per_volume_rate * r.volume) :=
    max_le_max (mul_le_mul_of_nonneg_left hwt h1) le_rfl
  by_cases hex : r.is_express = true
  · rw [if_pos hex, if_pos hex]
    exact mul_le_mul_of_nonneg_right
      (mul_le_mul_of_nonneg_right hbase hdm) h5
  · rw [if_neg hex, if_neg hex]
    exact mul_le_mul_of_nonneg_right hbase hdm

/-- `sampleNat` with the weight raised to 30 kg. -/
def sampleNatHeavier : ShippingRequest :=
  { length_cm := 10, width_cm := 10, height_cm := 10, weight_kg := 30,
    is_express := false, destination := Destination.national }

theorem price_mono_weight_witness :
    0 ≤ defaultConfig.per_kg_rate ∧
    0 ≤ defaultConfig.national_multiplier ∧
    0 ≤ defaultConfig.international_multiplier ∧
    0 ≤ defaultConfig.express_multiplier ∧
    sampleNat.Valid ∧ sampleNatHeavier.Valid ∧
    sampleNatHeavier.length_cm = sampleNat.length_cm ∧
    sampleNatHeavier.width_cm = sampleNat.width_cm ∧
    sampleNatHeavier.height_cm = sampleNat.height_cm ∧
    sampleNatHeavier.is_express = sampleNat.is_express ∧
    sampleNatHeavier.destination = sampleNat.destination ∧
    sampleNat.weight_kg ≤ sampleNatHeavier.weight_kg ∧
    (calculateShipping defaultConfig sampleNat).total_price ≤
      (calculateShipping defaultConfig sampleNatHeavier).total_price :=
  ⟨by norm_num [defaultConfig], by norm_num [defaultConfig],
    by norm_num [defaultConfig], by norm_num [defaultConfig],
    by decide, by decide, rfl, rfl, rfl, rfl, rfl, by decide,
    price_mono_weight defaultConfig (by norm_num [defaultConfig])
      (by norm_num [defaultConfig]) (by norm_num [defaultConfig])
      (by norm_num [defaultConfig]) sampleNat sampleNatHeavier
      (by decide) (by decide) rfl rfl rfl rfl rfl (by decide)⟩
